import Mathlib

/-!  Shallow embedding of `backtradermql5/mt5data.py` (class `MTraderData`):
the `_load` finite-state-machine loop, `_st_start`, `_load_tick`,
`_load_candle` and `haslivedata`, modelled as pure functions over an explicit
feed state.

Modelling conventions:
* Python floats are modelled by exact rationals (the claims under study are
  ordering and exact-decimal facts).
* `date2num (datetime.fromtimestamp t)` is modelled by the strictly monotone
  affine map `t ↦ 719163 + t / 86400` (matplotlib day number of the Unix
  epoch plus the day fraction); no ordering fact below depends on the
  constants, only on strict monotonicity.
* backtrader's rolling line buffer is modelled by the list `emitted` of
  completed bars, most recent first: `self.lines.datetime[-1]` is
  `emitted.head?` (reading the slot when no bar was ever emitted yields NaN
  in the source, and every comparison with NaN is False, hence the `Option`
  with `none ↦ false` in `dtSeen`); `len(self)` during `_load` equals
  `emitted.length + 1` because `load` first `forward()`s a fresh slot.
* The `while True:` loop of `_load` is given fuel.  `LoadResult.spin` means
  the fuel ran out, i.e. the loop iterated that many times without
  returning; a result of `.spin` for every fuel models non-termination.
  `LoadResult.blocked` models a no-argument `Queue.get()` waiting forever on
  an empty queue, and `LoadResult.exn` an uncaught exception (a `zmq` receive
  timeout, or a tuple-unpacking mismatch between a message's declared
  timeframe and its payload shape).
* The store (`mt5store.py`) is not part of the sources under study; the
  pieces of its behaviour this file needs are modelled from the spec and are
  marked `Modelled from the spec:` on their doc comments.  -/

namespace MT5Data

/-- States of the finite state machine in `_load`:
`_ST_FROM, _ST_START, _ST_LIVE, _ST_HISTORBACK, _ST_OVER = range(5)`. -/
inductive FSMSt
  | ST_FROM
  | ST_START
  | ST_LIVE
  | ST_HISTORBACK
  | ST_OVER
deriving DecidableEq

/-- The `subscribe` parameter: `'DATA'`, `'SUB'` or `None`. -/
inductive SubMode
  | data
  | sub
  | noSub
deriving DecidableEq

/-- Notifications sent through `put_notification`. -/
inductive Notif
  | DELAYED
  | CONNECTED
  | DISCONNECTED
  | LIVE
deriving DecidableEq

/-- One completed bar, i.e. the values assigned to the feed's lines.
The source field `open` is a Lean keyword and is rendered `opn`. -/
structure Bar where
  datetime : ℚ
  opn : ℚ
  high : ℚ
  low : ℚ
  close : ℚ
  volume : ℚ
  openinterest : ℚ
deriving DecidableEq

/-- The `data` payload of a message: either a tick tuple
`(time_stamp, bid, ask)` (epoch milliseconds) or a candle tuple
`(time_stamp, open, high, low, close, volume, spread)` (epoch seconds). -/
inductive Payload
  | tickData (time_stamp bid ask : ℚ)
  | candleData (time_stamp opn high low close volume : ℚ) (spread : ℤ)
deriving DecidableEq

/-- Modelled from the spec: a live message is a tagged union, either a
control event `\x7bstatus: CONNECTED|DISCONNECTED\x7d` or a data message
`\x7bsymbol, timeframe, data\x7d` (spec section 6, RawMessage in section 3).
The store that produces these messages is not among the sources under
study. -/
inductive LiveMsg
  | status (s : String)
  | dataMsg (symbol timeframe : String) (pl : Payload)
deriving DecidableEq

/-- An item of the historical queue `qhist` as `_load` distinguishes them:
`msg is None` (unmanaged hard failure), a falsy non-`None` message (the
end-of-data sentinel), or a data payload. -/
inductive HistMsg
  | noneMsg
  | emptyMsg
  | histData (pl : Payload)
deriving DecidableEq

/-- The feed's configuration parameters (the `params` tuple plus the
identification of the instrument).  `granularity` is modelled from the spec:
it stands for the store's `get_granularity(timeframe, compression)` label
used to match live messages; the store is not among the sources under
study. -/
structure Params where
  dataname : String
  timeframe : ℕ
  compression : ℕ
  subscribe : SubMode
  historical : Bool
  backfill : Bool
  backfill_from : Option (List Bar)
  include_last : Bool
  reconnect : Bool
  useask : Bool
  addspread : Bool
  granularity : String
deriving DecidableEq

/-- The mutable state of a feed instance.  `qhist`/`qlive` hold the queued
messages (head = next to be taken); `histSupply` scripts the queues the
store returns on successive `price_data` calls; `requests` records the
`(date_begin, date_end)` arguments of those calls; `emitted` holds the
completed bars, most recent first; `notifications` records
`put_notification` calls in order. -/
structure FeedSt where
  state : FSMSt
  statelivereconn : Bool
  fromdate : Option ℚ
  todate : Option ℚ
  qhist : List HistMsg
  histSupply : List (List HistMsg)
  qlive : List LiveMsg
  qliveIsSet : Bool
  backfillFrom : List Bar
  emitted : List Bar
  notifications : List Notif
  requests : List (Option ℚ × Option ℚ)
  historyback_queue_size : ℕ
deriving DecidableEq

/-- Result of one `_load` call: `True` (a new bar), `None` (try later),
`False` (end of data), plus the three effects a pure model must name:
fuel exhaustion of the `while True:` loop (`spin`), an indefinitely
blocking `Queue.get()` (`blocked`) and an uncaught exception (`exn`).
`tryLater` is produced only by the `except queue.Empty` handler, which a
no-argument blocking `get()` never triggers. -/
inductive LoadResult
  | newBar
  | tryLater
  | endOfData
  | spin
  | blocked
  | exn
deriving DecidableEq

/-- Outcome of one iteration of the `while True:` body: either the call
returns (`done`) or the body falls through / executes `continue`
(`again`). -/
inductive StepOut
  | done (r : LoadResult) (st : FeedSt)
  | again (st : FeedSt)
deriving DecidableEq

/-- The state carried by a `StepOut`. -/
def stepSt : StepOut → FeedSt
  | .done _ st => st
  | .again st => st

/-- Model of `date2num(datetime.fromtimestamp t)` for `t` in epoch seconds:
a strictly monotone affine map to matplotlib day numbers. -/
def date2num (t : ℚ) : ℚ := 719163 + t / 86400

/-- Model of `num2date`, the inverse conversion used by `_st_start`. -/
def num2date (n : ℚ) : ℚ := (n - 719163) * 86400

/-- `put_notification`. -/
def notify (n : Notif) (st : FeedSt) : FeedSt :=
  { st with notifications := st.notifications ++ [n] }

/-- Completing the current bar: after `_load` returns `True`, the values
written to the lines become the newest completed bar. -/
def emit (bar : Bar) (st : FeedSt) : FeedSt :=
  { st with emitted := bar :: st.emitted }

/-- `self.lines.datetime[-1]`, the datetime of the last completed bar
(`none` when no bar has been emitted yet; the slot then holds NaN and every
comparison against it is False). -/
def lastDt (st : FeedSt) : Option ℚ :=
  st.emitted.head?.map Bar.datetime

/-- The staleness test `dt <= self.lines.datetime[-1]` of `_load_tick` and
`_load_candle` (False against the initial NaN slot). -/
def dtSeen (dt : ℚ) : Option ℚ → Bool
  | none => false
  | some l => decide (dt ≤ l)

/-- The fresh line slot `forward()` provides before `_load` runs; its
contents are irrelevant: on success every field is overwritten, on
staleness the builders return before writing. -/
def blankBar : Bar :=
  { datetime := 0, opn := 0, high := 0, low := 0, close := 0,
    volume := 0, openinterest := 0 }

/-- `_load_tick(self, msg)`: convert the millisecond timestamp, reject a
non-new time, else write the bar lines from the bid (or, with `useask`, the
ask) price.  The `cur` argument is the current line slot; it is returned
unchanged when the message is stale. -/
def load_tick (cfg : Params) (lastdt : Option ℚ) (cur : Bar)
    (time_stamp bid ask : ℚ) : Bool × Bar :=
  let dt := date2num (time_stamp / 1000)
  if dtSeen dt lastdt then (false, cur)
  else
    let tick := if cfg.useask then ask else bid
    (true, { datetime := dt, opn := tick, high := tick, low := tick,
             close := tick, volume := 0, openinterest := 0 })

/-- The helper `addspread(p, s)` inside `_load_candle`:
`round(p + s*0.001, 3)` for a `dataname` ending in JPY, else
`round(p + s*0.00001, 5)`. -/
def roundTo (n : ℕ) (q : ℚ) : ℚ := (round (q * 10 ^ n) : ℚ) / 10 ^ n

/-- Model of `dataname.endswith("JPY")`: the last three characters are
`JPY` (stated on the character list; `String.endsWith` itself does not
reduce in the kernel). -/
def endsWithJPY (s : String) : Bool :=
  decide (s.toList.reverse.take 3 = ['Y', 'P', 'J'])

/-- The spread adjustment of `_load_candle` (Python's `round` is
half-to-even on floats; no value in this development sits on a tie, so the
half-up `round` on `ℚ` agrees). -/
def addspread (dataname : String) (p : ℚ) (s : ℤ) : ℚ :=
  if endsWithJPY dataname then roundTo 3 (p + s * (1 / 1000))
  else roundTo 5 (p + s * (1 / 100000))

/-- `_load_candle(self, msg)`: convert the second-resolution timestamp,
reject a non-new time, else write the bar lines, applying `addspread` to
each of open/high/low/close when the `addspread` parameter is set. -/
def load_candle (cfg : Params) (lastdt : Option ℚ) (cur : Bar)
    (time_stamp o h l c v : ℚ) (spread : ℤ) : Bool × Bar :=
  let dt := date2num time_stamp
  if dtSeen dt lastdt then (false, cur)
  else
    (true,
     { datetime := dt,
       opn := if cfg.addspread then addspread cfg.dataname o spread else o,
       high := if cfg.addspread then addspread cfg.dataname h spread else h,
       low := if cfg.addspread then addspread cfg.dataname l spread else l,
       close := if cfg.addspread then addspread cfg.dataname c spread else c,
       volume := v, openinterest := 0 })

/-- Modelled from the spec: reading `msg["status"]` on the tagged union.  A
data message carries no `CONNECTED`/`DISCONNECTED` status (section 6 gives
the two message shapes); the store producing them is not among the sources
under study. -/
def msgStatus : LiveMsg → Option String
  | .status s => some s
  | .dataMsg _ _ _ => none

/-- Modelled from the spec: reading `msg["timeframe"]`; a control event
carries none, so the granularity match of `_load` fails on it. -/
def msgTimeframe : LiveMsg → Option String
  | .status _ => none
  | .dataMsg _ tf _ => some tf

/-- Modelled from the spec: reading `msg["symbol"]`. -/
def msgSymbol : LiveMsg → Option String
  | .status _ => none
  | .dataMsg sym _ _ => some sym

/-- Modelled from the spec: reading `msg["data"]`. -/
def msgData : LiveMsg → Option Payload
  | .status _ => none
  | .dataMsg _ _ pl => some pl

/-- `_st_start`: notify DELAYED, convert the from/to bounds
(`num2date(self.fromdate) if self.fromdate > -inf else None`), request the
historical range from the store (recorded in `requests`; the returned queue
is the next scripted entry of `histSupply`), move to HISTORBACK, return
True. -/
def st_start (cfg : Params) (st : FeedSt) : Bool × FeedSt :=
  let st1 := notify Notif.DELAYED st
  let date_begin := Option.map num2date st1.fromdate
  let date_end := Option.map num2date st1.todate
  let st2 := { st1 with requests := st1.requests ++ [(date_begin, date_end)] }
  let st3 :=
    match st2.histSupply with
    | [] => { st2 with qhist := [] }
    | q :: qs => { st2 with qhist := q, histSupply := qs }
  (true, { st3 with state := FSMSt.ST_HISTORBACK })

/-- `haslivedata`: `if not self.subscribe: return False; return
bool(self.qlive)` — `start()` sets `qlive` to the store queue, the SUB
socket, or `None`; queue and socket objects are truthy. -/
def haslivedata (cfg : Params) (st : FeedSt) : Bool :=
  match cfg.subscribe with
  | SubMode.noSub => false
  | _ => st.qliveIsSet

/-- Outcome of fetching one live message in the LIVE branch. -/
inductive RecvOutcome
  | got (m : LiveMsg) (rest : List LiveMsg)
  | blockedQ
  | timeoutSUB
  | noMsg
deriving DecidableEq

/-- Fetching a live message.  `'DATA'`: `self.qlive.get()` — a no-argument
`Queue.get` blocks forever on an empty queue (`queue.Empty` is raised only
by a non-blocking or timed get, so the `except` handler is dead code).
`'SUB'`: `recv_string`/`recv_json` with `RCVTIMEO = 60s`; expiry raises
`zmq.error.Again`, which `_load` does not catch.  `None`: `msg = None`. -/
def recvLive (cfg : Params) (st : FeedSt) : RecvOutcome :=
  match cfg.subscribe with
  | SubMode.data =>
    match st.qlive with
    | [] => RecvOutcome.blockedQ
    | m :: rest => RecvOutcome.got m rest
  | SubMode.sub =>
    match st.qlive with
    | [] => RecvOutcome.timeoutSUB
    | m :: rest => RecvOutcome.got m rest
  | SubMode.noSub => RecvOutcome.noMsg

/-- One iteration of the `while True:` body in the LIVE state
(lines 202-243 of `mt5data.py`), including: the DISCONNECTED branch (notify,
leave the state at LIVE or set it to OVER according to `backfill`, set
`_statelivereconn`, `continue`); the CONNECTED-and-reconnecting branch
(notify, clear the flag, rewind `fromdate` to the last emitted datetime when
`len(self) > 1`, i.e. when a bar has been emitted, rerun `_st_start`,
`continue`); the granularity/symbol match followed by tick or candle
construction (return True on success, else fall through to the loop). -/
def liveStep (cfg : Params) (st : FeedSt) : StepOut :=
  match recvLive cfg st with
  | RecvOutcome.blockedQ => StepOut.done LoadResult.blocked st
  | RecvOutcome.timeoutSUB => StepOut.done LoadResult.exn st
  | RecvOutcome.noMsg => StepOut.again st
  | RecvOutcome.got m rest =>
    let st1 : FeedSt := { st with qlive := rest }
    if msgStatus m = some ("DISCONNECTED") then
      let st2 := notify Notif.DISCONNECTED st1
      let st3 :=
        if cfg.backfill = false then { st2 with state := FSMSt.ST_OVER }
        else st2
      StepOut.again { st3 with statelivereconn := true }
    else if msgStatus m = some ("CONNECTED") ∧ st1.statelivereconn = true then
      let st2 := notify Notif.CONNECTED { st1 with statelivereconn := false }
      let st3 :=
        if st2.emitted ≠ [] then { st2 with fromdate := lastDt st2 }
        else st2
      StepOut.again (st_start cfg st3).2
    else if msgTimeframe m = some cfg.granularity
        ∧ msgSymbol m = some cfg.dataname then
      match msgData m with
      | some (Payload.tickData ts bid ask) =>
        if msgTimeframe m = some ("TICK") then
          match load_tick cfg (lastDt st1) blankBar ts bid ask with
          | (true, bar) => StepOut.done LoadResult.newBar (emit bar st1)
          | (false, _) => StepOut.again st1
        else StepOut.done LoadResult.exn st1
      | some (Payload.candleData ts o h l c v sp) =>
        if msgTimeframe m = some ("TICK") then StepOut.done LoadResult.exn st1
        else
          match load_candle cfg (lastDt st1) blankBar ts o h l c v sp with
          | (true, bar) => StepOut.done LoadResult.newBar (emit bar st1)
          | (false, _) => StepOut.again st1
      | none => StepOut.again st1
    else StepOut.again st1

/-- One iteration of the `while True:` body in the HISTORBACK state
(lines 245-272): take a message from `qhist` (a `Queue.get` that blocks on
an empty queue), refresh `_historyback_queue_size`; on `None` notify
DISCONNECTED and return False from OVER; on a data payload build a tick or
candle bar — a candle whose time was already seen `continue`s, while a tick
whose time was already seen falls through to the LIVE transition; on the
falsy end-of-data sentinel, either stop (historical mode) or fall through
to the LIVE transition (set LIVE, notify LIVE, `continue`). -/
def histStep (cfg : Params) (st : FeedSt) : StepOut :=
  match st.qhist with
  | [] => StepOut.done LoadResult.blocked st
  | m :: rest =>
    let st1 : FeedSt :=
      { st with qhist := rest, historyback_queue_size := rest.length }
    match m with
    | HistMsg.noneMsg =>
      StepOut.done LoadResult.endOfData
        (notify Notif.DISCONNECTED { st1 with state := FSMSt.ST_OVER })
    | HistMsg.histData pl =>
      if cfg.timeframe = 1 then
        match pl with
        | Payload.tickData ts bid ask =>
          match load_tick cfg (lastDt st1) blankBar ts bid ask with
          | (true, bar) => StepOut.done LoadResult.newBar (emit bar st1)
          | (false, _) =>
            StepOut.again (notify Notif.LIVE { st1 with state := FSMSt.ST_LIVE })
        | Payload.candleData _ _ _ _ _ _ _ => StepOut.done LoadResult.exn st1
      else
        match pl with
        | Payload.candleData ts o h l c v sp =>
          match load_candle cfg (lastDt st1) blankBar ts o h l c v sp with
          | (true, bar) => StepOut.done LoadResult.newBar (emit bar st1)
          | (false, _) => StepOut.again st1
        | Payload.tickData _ _ _ => StepOut.done LoadResult.exn st1
    | HistMsg.emptyMsg =>
      if cfg.historical = true then
        StepOut.done LoadResult.endOfData
          (notify Notif.DISCONNECTED { st1 with state := FSMSt.ST_OVER })
      else
        StepOut.again (notify Notif.LIVE { st1 with state := FSMSt.ST_LIVE })

/-- One iteration of the `while True:` body in the FROM state
(lines 274-287): advance the external source; when consumed, move to START
and `continue`; otherwise copy every line of the source bar verbatim and
return True. -/
def fromStep (st : FeedSt) : StepOut :=
  match st.backfillFrom with
  | [] => StepOut.again { st with state := FSMSt.ST_START }
  | b :: rest => StepOut.done LoadResult.newBar (emit b { st with backfillFrom := rest })

/-- One iteration of the `while True:` body in the START state
(lines 289-292): run `_st_start` (which always returns True), or bail out
to OVER if it were to fail. -/
def startStep (cfg : Params) (st : FeedSt) : StepOut :=
  match st_start cfg st with
  | (true, st1) => StepOut.again st1
  | (false, st1) => StepOut.done LoadResult.endOfData { st1 with state := FSMSt.ST_OVER }

/-- One iteration of the `while True:` body of `_load`: dispatch on the
state; no branch of the source matches OVER, so the body falls through and
the loop runs again on an unchanged state. -/
def loadStep (cfg : Params) (st : FeedSt) : StepOut :=
  if st.state = FSMSt.ST_LIVE then liveStep cfg st
  else if st.state = FSMSt.ST_HISTORBACK then histStep cfg st
  else if st.state = FSMSt.ST_FROM then fromStep st
  else if st.state = FSMSt.ST_START then startStep cfg st
  else StepOut.again st

/-- The `while True:` loop of `_load`, with fuel. -/
def loadLoop (cfg : Params) : ℕ → FeedSt → LoadResult × FeedSt
  | 0, st => (LoadResult.spin, st)
  | Nat.succ fuel, st =>
    match loadStep cfg st with
    | StepOut.done r st2 => (r, st2)
    | StepOut.again st2 => loadLoop cfg fuel st2

/-- `_load`: the two early returns (OVER, and LIVE without live data) then
the loop. -/
def load (cfg : Params) (fuel : ℕ) (st : FeedSt) : LoadResult × FeedSt :=
  if st.state = FSMSt.ST_OVER then (LoadResult.endOfData, st)
  else if st.state = FSMSt.ST_LIVE ∧ haslivedata cfg st = false then
    (LoadResult.endOfData, st)
  else loadLoop cfg fuel st

/-- `start()` as far as the state machine is concerned: reset
`_statelivereconn`, set `qlive` (`None` exactly when `subscribe` is
`None`), then either enter FROM (an external backfill source is
configured) or run `_st_start` from START. -/
def startFeed (cfg : Params) (fromdate0 todate0 : Option ℚ)
    (qlive0 : List LiveMsg) (histSupply0 : List (List HistMsg)) : FeedSt :=
  let st0 : FeedSt :=
    { state := FSMSt.ST_OVER, statelivereconn := false,
      fromdate := fromdate0, todate := todate0,
      qhist := [], histSupply := histSupply0, qlive := qlive0,
      qliveIsSet := decide (cfg.subscribe ≠ SubMode.noSub),
      backfillFrom := (cfg.backfill_from).getD [],
      emitted := [], notifications := [], requests := [],
      historyback_queue_size := 0 }
  match cfg.backfill_from with
  | some _ => { st0 with state := FSMSt.ST_FROM }
  | none => (st_start cfg { st0 with state := FSMSt.ST_START }).2

/-- Boolean check that a most-recent-first list of bars is strictly
decreasing in datetime, i.e. that the emission order was strictly
increasing. -/
def monoDec : List Bar → Bool
  | [] => true
  | [_] => true
  | a :: b :: l => (decide (b.datetime < a.datetime)) && monoDec (b :: l)

/-- A baseline configuration for concrete scenarios. -/
def baseCfg : Params :=
  { dataname := "EURUSD", timeframe := 5, compression := 1,
    subscribe := SubMode.data, historical := false, backfill := true,
    backfill_from := none, include_last := false, reconnect := true,
    useask := false, addspread := false, granularity := "M1" }

/-- A baseline feed state for concrete scenarios: LIVE, nothing queued,
nothing emitted. -/
def base : FeedSt :=
  { state := FSMSt.ST_LIVE, statelivereconn := false, fromdate := none,
    todate := none, qhist := [], histSupply := [], qlive := [],
    qliveIsSet := true, backfillFrom := [], emitted := [],
    notifications := [], requests := [], historyback_queue_size := 0 }

/-- Scenario C1: live feed with backfill-on-reconnect disabled. -/
def cfgC1 : Params := { baseCfg with backfill := false }

/-- Scenario C1: a DISCONNECTED control event is queued. -/
def stC1 : FeedSt := { base with qlive := [LiveMsg.status ("DISCONNECTED")] }

/-- Scenario C1: the state after the DISCONNECTED branch ran. -/
def stC1after : FeedSt :=
  { base with
    state := FSMSt.ST_OVER
    statelivereconn := true
    notifications := [Notif.DISCONNECTED] }

/-- Scenario C8: spread adjustment enabled on a non-JPY instrument. -/
def cfgC8eur : Params := { baseCfg with addspread := true }

/-- Scenario C8: spread adjustment enabled on a JPY pair. -/
def cfgC8jpy : Params :=
  { baseCfg with addspread := true, dataname := "USDJPY" }

/-- Scenario C5: backfilling, the historical queue holds the end-of-data
sentinel. -/
def stC5 : FeedSt :=
  { base with state := FSMSt.ST_HISTORBACK, qhist := [HistMsg.emptyMsg] }

/-- Scenario C3: a tick-timeframe feed (backtrader `TimeFrame.Ticks = 1`). -/
def cfgC3 : Params := { baseCfg with timeframe := 1, granularity := "TICK" }

/-- Scenario C3: the bar already emitted; its datetime is `date2num 86400`. -/
def barH : Bar :=
  { datetime := 719164, opn := 1, high := 1, low := 1, close := 1,
    volume := 0, openinterest := 0 }

/-- Scenario C3: backfilling after `barH` was emitted, and the historical
queue holds one tick whose converted timestamp equals `barH.datetime`
(epoch 86400000 ms), i.e. a stale historical tick. -/
def stC3 : FeedSt :=
  { base with
    state := FSMSt.ST_HISTORBACK
    emitted := [barH]
    qhist := [HistMsg.histData (Payload.tickData 86400000 1 2)] }

/-- Scenario C2: first bar supplied by the external backfill source. -/
def barA : Bar :=
  { datetime := 5, opn := 1, high := 1, low := 1, close := 1,
    volume := 0, openinterest := 0 }

/-- Scenario C2: second bar supplied by the external backfill source; its
timestamp is older than `barA`'s. -/
def barB : Bar :=
  { datetime := 3, opn := 1, high := 1, low := 1, close := 1,
    volume := 0, openinterest := 0 }

/-- Scenario C2: a feed with an external backfill source whose bars arrive
out of order. -/
def cfgC2 : Params := { baseCfg with backfill_from := some [barA, barB] }

/-- Scenario C7: the SUB transport variant. -/
def cfgSub : Params := { baseCfg with subscribe := SubMode.sub }

/-- Scenario C3: the state after the stale historical tick was consumed —
the feed has moved to LIVE and notified LIVE. -/
def stC3mid : FeedSt :=
  { base with
    state := FSMSt.ST_LIVE
    emitted := [barH]
    notifications := [Notif.LIVE] }

/-- The feed state produced by the CONNECTED-while-reconnecting branch of
`_load`: message consumed, CONNECTED notified, flag cleared, `fromdate`
rewound to the last emitted bar's datetime, then `_st_start` run. -/
def reconnectRestart (cfg : Params) (st : FeedSt) (rest : List LiveMsg)
    (b : Bar) : FeedSt :=
  (st_start cfg
    { st with
      qlive := rest
      statelivereconn := false
      notifications := st.notifications ++ [Notif.CONNECTED]
      fromdate := some b.datetime }).2

/-- Scenario C4: a reconnecting LIVE feed (flag set after a DISCONNECT)
receives a CONNECTED control event, one bar having been emitted. -/
def stC4 : FeedSt :=
  { base with
    statelivereconn := true
    qlive := [LiveMsg.status ("CONNECTED")]
    emitted := [barH] }

/-- Scenario C6: a live data message for another instrument is queued. -/
def stC6 : FeedSt :=
  { base with
    qlive := [LiveMsg.dataMsg ("GBPUSD") ("M1") (Payload.tickData 0 1 2)] }

/-- The monotonicity invariant: the emitted bars are strictly increasing in
time (strictly decreasing in the most-recent-first list), and the machine
is not in the FROM state — the one state that copies bars without the
staleness check. -/
def Inv (st : FeedSt) : Prop :=
  monoDec st.emitted = true ∧ ¬st.state = FSMSt.ST_FROM

end MT5Data

namespace MT5Data

/-- `loadLoop` unfolding when the body executes `continue` / falls through. -/
theorem loadLoop_again (cfg : Params) (n : ℕ) (st st2 : FeedSt)
    (h : loadStep cfg st = StepOut.again st2) :
    loadLoop cfg (n + 1) st = loadLoop cfg n st2 := by
  simp [loadLoop, h]

/-- `loadLoop` unfolding when the body returns. -/
theorem loadLoop_done (cfg : Params) (n : ℕ) (st : FeedSt) (r : LoadResult)
    (st2 : FeedSt) (h : loadStep cfg st = StepOut.done r st2) :
    loadLoop cfg (n + 1) st = (r, st2) := by
  simp [loadLoop, h]

/-- Inside the `while True:` loop no branch matches the OVER state, so the
loop spins forever (the OVER early return sits before the loop only). -/
theorem over_spin (cfg : Params) (n : ℕ) (st : FeedSt)
    (h : st.state = FSMSt.ST_OVER) :
    loadLoop cfg n st = (LoadResult.spin, st) := by
  induction n with
  | zero => rfl
  | succ k ih =>
    have hs : loadStep cfg st = StepOut.again st := by simp [loadStep, h]
    rw [loadLoop_again cfg k st st hs]
    exact ih

/-- `_load` reduces to the loop when neither early return fires. -/
theorem load_eq_loop (cfg : Params) (fuel : ℕ) (st : FeedSt)
    (h1 : ¬st.state = FSMSt.ST_OVER)
    (h2 : ¬(st.state = FSMSt.ST_LIVE ∧ haslivedata cfg st = false)) :
    load cfg fuel st = loadLoop cfg fuel st := by
  simp [load, h1, h2]

/-- Closed form of the state `_st_start` produces: DELAYED notified, the
converted date range recorded as a request, the next scripted historical
queue installed, state set to HISTORBACK. -/
theorem st_start_snd (cfg : Params) (s : FeedSt) :
    (st_start cfg s).2 =
      { s with
        notifications := s.notifications ++ [Notif.DELAYED]
        requests :=
          s.requests ++
            [(Option.map num2date s.fromdate, Option.map num2date s.todate)]
        qhist := s.histSupply.headD []
        histSupply := s.histSupply.tail
        state := FSMSt.ST_HISTORBACK } := by
  cases h : s.histSupply <;> simp [st_start, notify, h]

/-- `_st_start` always returns True. -/
theorem st_start_fst (cfg : Params) (s : FeedSt) : (st_start cfg s).1 = true := by
  cases h : s.histSupply <;> simp [st_start, notify, h]

/-- Prepending a bar whose datetime passes the staleness check against the
current head preserves the monotonicity check. -/
theorem monoDec_cons (bar : Bar) (l : List Bar)
    (h : monoDec l = true)
    (h2 : dtSeen bar.datetime (l.head?.map Bar.datetime) = false) :
    monoDec (bar :: l) = true := by
  cases l with
  | nil => rfl
  | cons b t =>
    simp only [List.head?_cons, Option.map_some'] at h2
    simp only [dtSeen, decide_eq_false_iff_not, not_le] at h2
    simp [monoDec, h, h2]

/-- A successful `_load_tick` produced a datetime that passed the
staleness check. -/
theorem load_tick_notSeen (cfg : Params) (lastdt : Option ℚ) (cur : Bar)
    (ts bid ask : ℚ) (bar : Bar)
    (h : load_tick cfg lastdt cur ts bid ask = (true, bar)) :
    dtSeen bar.datetime lastdt = false := by
  rw [load_tick] at h
  split at h
  · simp at h
  · next hc =>
      rw [Prod.mk.injEq] at h
      obtain ⟨-, rfl⟩ := h
      simpa using hc

/-- A successful `_load_candle` produced a datetime that passed the
staleness check. -/
theorem load_candle_notSeen (cfg : Params) (lastdt : Option ℚ) (cur : Bar)
    (ts o hi lo c v : ℚ) (sp : ℤ) (bar : Bar)
    (h : load_candle cfg lastdt cur ts o hi lo c v sp = (true, bar)) :
    dtSeen bar.datetime lastdt = false := by
  rw [load_candle] at h
  split at h
  · simp at h
  · next hc =>
      rw [Prod.mk.injEq] at h
      obtain ⟨-, rfl⟩ := h
      simpa using hc

/-- C1: in a LIVE poll that receives a DISCONNECTED control event with
`backfill` disabled, the feed notifies DISCONNECTED and sets the state to
OVER — but the call then never returns: the loop body has no OVER case, so
`continue` spins forever.  The claimed EndOfData return does not happen for
any number of loop iterations. -/
theorem C1_disconnect_no_backfill_spins :
    ∀ fuel : ℕ,
      load cfgC1 (fuel + 2) stC1 = (LoadResult.spin, stC1after) ∧
      stC1after.state = FSMSt.ST_OVER ∧
      stC1after.notifications = [Notif.DISCONNECTED] ∧
      LoadResult.spin ≠ LoadResult.endOfData := by
  intro fuel
  refine ⟨?_, rfl, rfl, by decide⟩
  have hstep : loadStep cfgC1 stC1 = StepOut.again stC1after := by decide
  rw [load_eq_loop cfgC1 (fuel + 2) stC1 (by decide) (by decide)]
  rw [show fuel + 2 = (fuel + 1) + 1 from rfl]
  rw [loadLoop_again cfgC1 (fuel + 1) stC1 stC1after hstep]
  exact over_spin cfgC1 (fuel + 1) stC1after rfl

/-- C10: with `subscribe=None` the feed reports no live data channel, so every
poll made in the LIVE state returns the terminal EndOfData signal at once,
leaving the state untouched and consuming no live message. -/
theorem C10_none_subscription_eod (cfg : Params) (st : FeedSt) (fuel : ℕ)
    (hsub : cfg.subscribe = SubMode.noSub)
    (hstate : st.state = FSMSt.ST_LIVE) :
    haslivedata cfg st = false ∧
    load cfg fuel st = (LoadResult.endOfData, st) := by
  have hl : haslivedata cfg st = false := by simp [haslivedata, hsub]
  refine ⟨hl, ?_⟩
  simp [load, hstate, hl]

/-- Witness for C10 on a concrete NONE-mode feed in the LIVE state. -/
theorem C10_none_subscription_eod_witness :
    haslivedata { baseCfg with subscribe := SubMode.noSub } base = false ∧
    load { baseCfg with subscribe := SubMode.noSub } 3 base =
      (LoadResult.endOfData, base) :=
  C10_none_subscription_eod { baseCfg with subscribe := SubMode.noSub }
    base 3 rfl rfl

/-- C9: when the converted timestamp of a tick or candle message is not newer
than the last emitted datetime, the builders return the stale outcome with
the current line slot unchanged: no line field is written. -/
theorem C9_stale_reject_writes_nothing (cfg : Params) (l : ℚ) (cur : Bar)
    (ts1 bid ask : ℚ) (ts2 o h lo c v : ℚ) (sp : ℤ)
    (htick : date2num (ts1 / 1000) ≤ l) (hcand : date2num ts2 ≤ l) :
    load_tick cfg (some l) cur ts1 bid ask = (false, cur) ∧
    load_candle cfg (some l) cur ts2 o h lo c v sp = (false, cur) := by
  constructor
  · simp [load_tick, dtSeen, htick]
  · simp [load_candle, dtSeen, hcand]

/-- Witness for C9 on concrete stale messages. -/
theorem C9_stale_reject_writes_nothing_witness :
    load_tick baseCfg (some 719200) blankBar 0 1 2 = (false, blankBar) ∧
    load_candle baseCfg (some 719200) blankBar 0 1 2 3 4 5 6 =
      (false, blankBar) :=
  C9_stale_reject_writes_nothing baseCfg 719200 blankBar 0 1 2 0 1 2 3 4 5 6
    (by norm_num [date2num]) (by norm_num [date2num])

/-- C8: with spread adjustment enabled, every candle price field is
`round(price + spread*0.001, 3)` on a JPY pair and
`round(price + spread*0.00001, 5)` otherwise; in particular EURUSD with
open 1.10000 and spread 20 yields 1.10020, and USDJPY with open 110.000
and spread 20 yields 110.020. -/
theorem C8_spread_adjustment :
    (∀ (cfg : Params) (lastdt : Option ℚ) (cur : Bar) (ts o h l c v : ℚ)
       (sp : ℤ) (bar : Bar),
       cfg.addspread = true →
       load_candle cfg lastdt cur ts o h l c v sp = (true, bar) →
       bar.opn = (if endsWithJPY cfg.dataname then
                    roundTo 3 (o + sp * (1 / 1000))
                  else roundTo 5 (o + sp * (1 / 100000))) ∧
       bar.high = (if endsWithJPY cfg.dataname then
                    roundTo 3 (h + sp * (1 / 1000))
                  else roundTo 5 (h + sp * (1 / 100000))) ∧
       bar.low = (if endsWithJPY cfg.dataname then
                    roundTo 3 (l + sp * (1 / 1000))
                  else roundTo 5 (l + sp * (1 / 100000))) ∧
       bar.close = (if endsWithJPY cfg.dataname then
                    roundTo 3 (c + sp * (1 / 1000))
                  else roundTo 5 (c + sp * (1 / 100000)))) ∧
    (load_candle cfgC8eur none blankBar 0 (11 / 10) (11 / 10) (11 / 10)
        (11 / 10) 0 20).2.opn = 11002 / 10000 ∧
    (load_candle cfgC8jpy none blankBar 0 110 110 110 110 0 20).2.opn =
      11002 / 100 := by
  have he : endsWithJPY ("EURUSD") = false := by decide
  have hj : endsWithJPY ("USDJPY") = true := by decide
  refine ⟨?_, ?_, ?_⟩
  · intro cfg lastdt cur ts o h l c v sp bar ha hload
    rw [load_candle] at hload
    split at hload
    · simp at hload
    · rw [Prod.mk.injEq] at hload
      obtain ⟨-, rfl⟩ := hload
      refine ⟨?_, ?_, ?_, ?_⟩ <;> simp [ha, addspread]
  · norm_num [load_candle, dtSeen, cfgC8eur, baseCfg, addspread, he, roundTo]
  · norm_num [load_candle, dtSeen, cfgC8jpy, baseCfg, addspread, hj, roundTo]

/-- C4: a LIVE poll that receives a CONNECTED control event while the
reconnect flag is set notifies CONNECTED, clears the flag, rewinds
`fromdate` to the last emitted bar's datetime, and restarts backfill via
`_st_start`: a new historical-range request beginning at that datetime is
recorded, DELAYED is notified, and the machine re-enters HISTORBACK. -/
theorem C4_reconnect_restarts_backfill (cfg : Params) (st : FeedSt)
    (rest : List LiveMsg) (b : Bar) (bs : List Bar) (fuel : ℕ)
    (hsub : cfg.subscribe = SubMode.data)
    (hstate : st.state = FSMSt.ST_LIVE)
    (hq : st.qlive = LiveMsg.status ("CONNECTED") :: rest)
    (hflag : st.statelivereconn = true)
    (hem : st.emitted = b :: bs) :
    loadLoop cfg (fuel + 1) st =
      loadLoop cfg fuel (reconnectRestart cfg st rest b) ∧
    (reconnectRestart cfg st rest b).statelivereconn = false ∧
    (reconnectRestart cfg st rest b).fromdate = some b.datetime ∧
    (reconnectRestart cfg st rest b).state = FSMSt.ST_HISTORBACK ∧
    (reconnectRestart cfg st rest b).qlive = rest ∧
    (reconnectRestart cfg st rest b).emitted = st.emitted ∧
    (reconnectRestart cfg st rest b).notifications =
      st.notifications ++ [Notif.CONNECTED, Notif.DELAYED] ∧
    (reconnectRestart cfg st rest b).requests =
      st.requests ++
        [(some (num2date b.datetime), Option.map num2date st.todate)] := by
  refine ⟨?_, ?_, ?_, ?_, ?_, ?_, ?_, ?_⟩
  · refine loadLoop_again cfg fuel st _ ?_
    simp [loadStep, hstate, liveStep, recvLive, hsub, hq, msgStatus, hflag,
      hem, notify, lastDt, reconnectRestart, st_start_snd]
  all_goals
    simp [reconnectRestart, st_start_snd, hem]

/-- Witness for C4 on a concrete reconnect scenario. -/
theorem C4_reconnect_restarts_backfill_witness :
    loadLoop baseCfg 1 stC4 =
      loadLoop baseCfg 0 (reconnectRestart baseCfg stC4 [] barH) ∧
    (reconnectRestart baseCfg stC4 [] barH).statelivereconn = false ∧
    (reconnectRestart baseCfg stC4 [] barH).fromdate = some barH.datetime ∧
    (reconnectRestart baseCfg stC4 [] barH).state = FSMSt.ST_HISTORBACK ∧
    (reconnectRestart baseCfg stC4 [] barH).qlive = [] ∧
    (reconnectRestart baseCfg stC4 [] barH).emitted = stC4.emitted ∧
    (reconnectRestart baseCfg stC4 [] barH).notifications =
      stC4.notifications ++ [Notif.CONNECTED, Notif.DELAYED] ∧
    (reconnectRestart baseCfg stC4 [] barH).requests =
      stC4.requests ++
        [(some (num2date barH.datetime), Option.map num2date stC4.todate)] :=
  C4_reconnect_restarts_backfill baseCfg stC4 [] barH [] 0 rfl rfl rfl rfl rfl

/-- Counterexample to C3: with a tick timeframe, a historical tick whose
converted timestamp is not newer than the last emitted bar does NOT make
the machine stay in HISTORBACK — the failed `_load_tick` falls through to
the live transition, so the state becomes LIVE and a LIVE notification is
emitted. -/
theorem C3_stale_tick_goes_live_counterexample :
    (load cfgC3 2 stC3).2.state = FSMSt.ST_LIVE ∧
    (load cfgC3 2 stC3).2.notifications = [Notif.LIVE] ∧
    ¬(load cfgC3 2 stC3).2.state = FSMSt.ST_HISTORBACK := by
  have hload : load cfgC3 2 stC3 = (LoadResult.blocked, stC3mid) := by
    have h1 : loadStep cfgC3 stC3 = StepOut.again stC3mid := by
      norm_num [loadStep, stC3, base, cfgC3, baseCfg, histStep, load_tick,
        dtSeen, date2num, lastDt, barH, blankBar, notify, stC3mid]
      exact fun h => nomatch h
    have h2 : loadStep cfgC3 stC3mid = StepOut.done LoadResult.blocked stC3mid := by
      norm_num [loadStep, stC3mid, base, cfgC3, baseCfg, liveStep, recvLive]
    have e0 : load cfgC3 2 stC3 = loadLoop cfgC3 2 stC3 := by
      refine load_eq_loop cfgC3 2 stC3 ?_ ?_ <;> simp [stC3, base]
    rw [e0]
    rw [show (2 : ℕ) = 1 + 1 from rfl, loadLoop_again cfgC3 1 stC3 stC3mid h1]
    exact loadLoop_done cfgC3 0 stC3mid LoadResult.blocked stC3mid h2
  rw [hload]
  refine ⟨rfl, rfl, by simp [stC3mid, base]⟩

/-- The amended C3: in HISTORBACK a stale historical CANDLE is skipped and
the machine stays in HISTORBACK for the next pull from the cursor; a stale
historical TICK instead falls through to the LIVE transition, emitting a
LIVE notification. -/
theorem C3_stale_skip_amended (cfg : Params) (st : FeedSt)
    (rest : List HistMsg) (fuel : ℕ)
    (hstate : st.state = FSMSt.ST_HISTORBACK) :
    (∀ (ts o h l c v : ℚ) (sp : ℤ),
      st.qhist = HistMsg.histData (Payload.candleData ts o h l c v sp) :: rest →
      ¬cfg.timeframe = 1 →
      dtSeen (date2num ts) (lastDt st) = true →
      loadLoop cfg (fuel + 1) st =
        loadLoop cfg fuel
          { st with qhist := rest, historyback_queue_size := rest.length }) ∧
    (∀ ts bid ask : ℚ,
      st.qhist = HistMsg.histData (Payload.tickData ts bid ask) :: rest →
      cfg.timeframe = 1 →
      dtSeen (date2num (ts / 1000)) (lastDt st) = true →
      loadLoop cfg (fuel + 1) st =
        loadLoop cfg fuel
          (notify Notif.LIVE
            { st with
              qhist := rest
              historyback_queue_size := rest.length
              state := FSMSt.ST_LIVE })) := by
  constructor
  · intro ts o h l c v sp hq htf hstale
    simp only [lastDt] at hstale
    refine loadLoop_again cfg fuel st _ ?_
    simp [loadStep, hstate, histStep, hq, htf, load_candle, lastDt, hstale]
  · intro ts bid ask hq htf hstale
    simp only [lastDt] at hstale
    refine loadLoop_again cfg fuel st _ ?_
    simp [loadStep, hstate, histStep, hq, htf, load_tick, lastDt, hstale,
      notify]

/-- Witness for the amended C3 on concrete stale historical messages. -/
theorem C3_stale_skip_amended_witness :
    loadLoop baseCfg 1
      { base with
        state := FSMSt.ST_HISTORBACK
        emitted := [barH]
        qhist := [HistMsg.histData (Payload.candleData 86400 1 1 1 1 0 0)] } =
    loadLoop baseCfg 0
      { { base with
          state := FSMSt.ST_HISTORBACK
          emitted := [barH]
          qhist := [HistMsg.histData (Payload.candleData 86400 1 1 1 1 0 0)] }
        with qhist := [], historyback_queue_size := 0 } :=
  (C3_stale_skip_amended baseCfg
    { base with
      state := FSMSt.ST_HISTORBACK
      emitted := [barH]
      qhist := [HistMsg.histData (Payload.candleData 86400 1 1 1 1 0 0)] }
    [] 0 rfl).1 86400 1 1 1 1 0 0 rfl (by norm_num [baseCfg])
    (by norm_num [dtSeen, date2num, lastDt, base, barH])

/-- C5: when the historical queue yields its falsy end-of-data sentinel in
HISTORBACK: with `historical=true` the poll notifies DISCONNECTED, moves
to OVER and returns EndOfData, and every later poll in OVER returns
EndOfData; with `historical=false` the poll consumes the sentinel, moves
to LIVE, appends exactly one LIVE notification and keeps running the loop
in the LIVE state. -/
theorem C5_exhaustion (cfg : Params) (st : FeedSt) (rest : List HistMsg)
    (fuel : ℕ)
    (hstate : st.state = FSMSt.ST_HISTORBACK)
    (hq : st.qhist = HistMsg.emptyMsg :: rest) :
    (cfg.historical = true →
      load cfg (fuel + 1) st =
        (LoadResult.endOfData,
         notify Notif.DISCONNECTED
           { st with
             qhist := rest
             historyback_queue_size := rest.length
             state := FSMSt.ST_OVER }) ∧
      ∀ (f2 : ℕ) (st2 : FeedSt), st2.state = FSMSt.ST_OVER →
        load cfg f2 st2 = (LoadResult.endOfData, st2)) ∧
    (cfg.historical = false →
      load cfg (fuel + 1) st =
        loadLoop cfg fuel
          (notify Notif.LIVE
            { st with
              qhist := rest
              historyback_queue_size := rest.length
              state := FSMSt.ST_LIVE })) := by
  have hne : ¬st.state = FSMSt.ST_OVER := by simp [hstate]
  have hne2 : ¬(st.state = FSMSt.ST_LIVE ∧ haslivedata cfg st = false) := by
    simp [hstate]
  constructor
  · intro hh
    constructor
    · rw [load_eq_loop cfg (fuel + 1) st hne hne2]
      refine loadLoop_done cfg fuel st _ _ ?_
      simp [loadStep, hstate, histStep, hq, hh, notify]
    · intro f2 st2 h2
      simp [load, h2]
  · intro hh
    rw [load_eq_loop cfg (fuel + 1) st hne hne2]
    refine loadLoop_again cfg fuel st _ ?_
    simp [loadStep, hstate, histStep, hq, hh, notify]

/-- Witness for C5 on a concrete exhausted historical queue, in both the
historical-only and the live-continuation configuration. -/
theorem C5_exhaustion_witness :
    load { baseCfg with historical := true } 1 stC5 =
      (LoadResult.endOfData,
       notify Notif.DISCONNECTED
         { stC5 with
           qhist := []
           historyback_queue_size := 0
           state := FSMSt.ST_OVER }) ∧
    load baseCfg 1 stC5 =
      loadLoop baseCfg 0
        (notify Notif.LIVE
          { stC5 with
            qhist := []
            historyback_queue_size := 0
            state := FSMSt.ST_LIVE }) :=
  ⟨((C5_exhaustion { baseCfg with historical := true } stC5 [] 0 rfl rfl).1
      rfl).1,
   (C5_exhaustion baseCfg stC5 [] 0 rfl rfl).2 rfl⟩

/-- One LIVE-state loop iteration preserves the monotonicity invariant:
every emission goes through `_load_tick`/`_load_candle`, whose staleness
check admits only strictly newer datetimes. -/
theorem liveStep_inv (cfg : Params) (st : FeedSt)
    (hm : monoDec st.emitted = true) (hstate : st.state = FSMSt.ST_LIVE) :
    Inv (stepSt (liveStep cfg st)) := by
  have hns : ¬st.state = FSMSt.ST_FROM := by simp [hstate]
  cases hr : recvLive cfg st with
  | blockedQ => simpa [liveStep, hr, stepSt, Inv] using ⟨hm, hns⟩
  | timeoutSUB => simpa [liveStep, hr, stepSt, Inv] using ⟨hm, hns⟩
  | noMsg => simpa [liveStep, hr, stepSt, Inv] using ⟨hm, hns⟩
  | got m rest =>
    cases m with
    | status s =>
      simp [liveStep, hr, msgStatus, msgTimeframe, msgSymbol, msgData]
      split_ifs with hd hb hc he
      · exact ⟨by simpa [stepSt, notify] using hm, by simp [stepSt, notify]⟩
      · exact ⟨by simpa [stepSt, notify] using hm,
          by simp [stepSt, notify, hstate]⟩
      · exact ⟨by simpa [stepSt, notify, st_start_snd] using hm,
          by simp [stepSt, notify, st_start_snd]⟩
      · exact ⟨by simpa [stepSt, notify, st_start_snd] using hm,
          by simp [stepSt, notify, st_start_snd]⟩
      · exact ⟨by simpa [stepSt] using hm, by simp [stepSt, hstate]⟩
    | dataMsg sym tf pl =>
      cases pl with
      | tickData ts bid ask =>
        simp [liveStep, hr, msgStatus, msgTimeframe, msgSymbol, msgData]
        split_ifs with hmt ht
        · cases hlt : load_tick cfg
              (lastDt { st with qlive := rest }) blankBar ts bid ask with
          | mk ok bar =>
            cases ok with
            | true =>
              refine ⟨?_, by simp [stepSt, emit, hstate]⟩
              simp only [stepSt, emit]
              exact monoDec_cons bar st.emitted hm
                (load_tick_notSeen cfg _ blankBar ts bid ask bar hlt)
            | false =>
              exact ⟨by simpa [stepSt] using hm, by simp [stepSt, hstate]⟩
        · exact ⟨by simpa [stepSt] using hm, by simp [stepSt, hstate]⟩
        · exact ⟨by simpa [stepSt] using hm, by simp [stepSt, hstate]⟩
      | candleData ts o hi lo c v sp =>
        simp [liveStep, hr, msgStatus, msgTimeframe, msgSymbol, msgData]
        split_ifs with hmt ht
        · exact ⟨by simpa [stepSt] using hm, by simp [stepSt, hstate]⟩
        · cases hlc : load_candle cfg
              (lastDt { st with qlive := rest }) blankBar ts o hi lo c v
              sp with
          | mk ok bar =>
            cases ok with
            | true =>
              refine ⟨?_, by simp [stepSt, emit, hstate]⟩
              simp only [stepSt, emit]
              exact monoDec_cons bar st.emitted hm
                (load_candle_notSeen cfg _ blankBar ts o hi lo c v sp bar hlc)
            | false =>
              exact ⟨by simpa [stepSt] using hm, by simp [stepSt, hstate]⟩
        · exact ⟨by simpa [stepSt] using hm, by simp [stepSt, hstate]⟩

/-- One HISTORBACK-state loop iteration preserves the monotonicity
invariant. -/
theorem histStep_inv (cfg : Params) (st : FeedSt)
    (hm : monoDec st.emitted = true)
    (hstate : st.state = FSMSt.ST_HISTORBACK) :
    Inv (stepSt (histStep cfg st)) := by
  cases hq : st.qhist with
  | nil =>
    exact ⟨by simpa [histStep, hq, stepSt] using hm,
      by simp [histStep, hq, stepSt, hstate]⟩
  | cons msg rest =>
    cases msg with
    | noneMsg =>
      exact ⟨by simpa [histStep, hq, stepSt, notify] using hm,
        by simp [histStep, hq, stepSt, notify]⟩
    | emptyMsg =>
      by_cases hh : cfg.historical = true
      · exact ⟨by simpa [histStep, hq, hh, stepSt, notify] using hm,
          by simp [histStep, hq, hh, stepSt, notify]⟩
      · exact ⟨by simpa [histStep, hq, hh, stepSt, notify] using hm,
          by simp [histStep, hq, hh, stepSt, notify]⟩
    | histData pl =>
      cases pl with
      | tickData ts bid ask =>
        simp [histStep, hq]
        split_ifs with htf
        · cases hlt : load_tick cfg
              (lastDt
                { st with
                  qhist := rest
                  historyback_queue_size := rest.length })
              blankBar ts bid ask with
          | mk ok bar =>
            cases ok with
            | true =>
              refine ⟨?_, by simp [stepSt, emit, hstate]⟩
              simp only [stepSt, emit]
              exact monoDec_cons bar st.emitted hm
                (load_tick_notSeen cfg _ blankBar ts bid ask bar hlt)
            | false =>
              exact ⟨by simpa [stepSt, notify] using hm,
                by simp [stepSt, notify]⟩
        · exact ⟨by simpa [stepSt] using hm, by simp [stepSt, hstate]⟩
      | candleData ts o hi lo c v sp =>
        simp [histStep, hq]
        split_ifs with htf
        · exact ⟨by simpa [stepSt] using hm, by simp [stepSt, hstate]⟩
        · cases hlc : load_candle cfg
              (lastDt
                { st with
                  qhist := rest
                  historyback_queue_size := rest.length })
              blankBar ts o hi lo c v sp with
          | mk ok bar =>
            cases ok with
            | true =>
              refine ⟨?_, by simp [stepSt, emit, hstate]⟩
              simp only [stepSt, emit]
              exact monoDec_cons bar st.emitted hm
                (load_candle_notSeen cfg _ blankBar ts o hi lo c v sp bar hlc)
            | false =>
              exact ⟨by simpa [stepSt] using hm, by simp [stepSt, hstate]⟩

/-- One START-state loop iteration preserves the monotonicity invariant. -/
theorem startStep_inv (cfg : Params) (st : FeedSt)
    (hm : monoDec st.emitted = true) :
    Inv (stepSt (startStep cfg st)) := by
  have hp : st_start cfg st = (true, (st_start cfg st).2) := by
    cases h : st.histSupply <;> simp [st_start, notify, h]
  rw [startStep, hp]
  exact ⟨by simpa [stepSt, st_start_snd] using hm,
    by simp [stepSt, st_start_snd]⟩

/-- One loop iteration of `_load` preserves the monotonicity invariant. -/
theorem loadStep_inv (cfg : Params) (st : FeedSt) (h : Inv st) :
    Inv (stepSt (loadStep cfg st)) := by
  obtain ⟨hm, hns⟩ := h
  rw [loadStep]
  by_cases h1 : st.state = FSMSt.ST_LIVE
  · rw [if_pos h1]
    exact liveStep_inv cfg st hm h1
  · rw [if_neg h1]
    by_cases h2 : st.state = FSMSt.ST_HISTORBACK
    · rw [if_pos h2]
      exact histStep_inv cfg st hm h2
    · rw [if_neg h2]
      by_cases h3 : st.state = FSMSt.ST_FROM
      · exact absurd h3 hns
      · rw [if_neg h3]
        by_cases h4 : st.state = FSMSt.ST_START
        · rw [if_pos h4]
          exact startStep_inv cfg st hm
        · rw [if_neg h4]
          exact ⟨hm, hns⟩

/-- The loop of `_load` preserves the monotonicity invariant. -/
theorem loadLoop_inv (cfg : Params) (fuel : ℕ) (st : FeedSt) (h : Inv st) :
    Inv (loadLoop cfg fuel st).2 := by
  induction fuel generalizing st with
  | zero => exact h
  | succ k ih =>
    have hs := loadStep_inv cfg st h
    cases hstep : loadStep cfg st with
    | done r st2 =>
      rw [loadLoop_done cfg k st r st2 hstep]
      rw [hstep] at hs
      simpa [stepSt] using hs
    | again st2 =>
      rw [loadLoop_again cfg k st st2 hstep]
      rw [hstep] at hs
      exact ih st2 (by simpa [stepSt] using hs)

/-- A whole `_load` call preserves the monotonicity invariant. -/
theorem load_inv (cfg : Params) (fuel : ℕ) (st : FeedSt) (h : Inv st) :
    Inv (load cfg fuel st).2 := by
  rw [load]
  split_ifs with h1 h2
  · exact h
  · exact h
  · exact loadLoop_inv cfg fuel st h

/-- Counterexample to C2: bars copied from the external backfill source in
the FROM state bypass the staleness check, so a source that yields bars
out of order makes the feed emit a bar whose timestamp is NOT greater than
its predecessor's.  Two polls on such a feed emit `barA` (t=5) then `barB`
(t=3), and the emitted sequence is not strictly increasing. -/
theorem C2_from_copies_unordered_counterexample :
    (load cfgC2 1 (startFeed cfgC2 none none [] [])).1 = LoadResult.newBar ∧
    (load cfgC2 1 (load cfgC2 1 (startFeed cfgC2 none none [] [])).2).1 =
      LoadResult.newBar ∧
    (load cfgC2 1
        (load cfgC2 1 (startFeed cfgC2 none none [] [])).2).2.emitted =
      [barB, barA] ∧
    monoDec
      (load cfgC2 1
        (load cfgC2 1 (startFeed cfgC2 none none [] [])).2).2.emitted =
      false := by
  decide

/-- The amended C2: when no external backfill source is configured, the
feed's emitted bars are strictly increasing in timestamp for the whole
run — the start state satisfies the monotonicity invariant and every
`_load` call (through historical backfill, live data, disconnects and
reconnect-restarts) preserves it, because every emission outside the FROM
state passes the strictly-newer staleness check.  FROM-state bars are
copied verbatim and are exempt (see the counterexample). -/
theorem C2_monotonic_amended (cfg : Params)
    (hbf : cfg.backfill_from = none)
    (fromdate0 todate0 : Option ℚ) (qlive0 : List LiveMsg)
    (histSupply0 : List (List HistMsg)) :
    Inv (startFeed cfg fromdate0 todate0 qlive0 histSupply0) ∧
    (∀ (fuel : ℕ) (st : FeedSt), Inv st → Inv (load cfg fuel st).2) := by
  constructor
  · simp [startFeed, hbf, st_start_snd, Inv, monoDec]
  · intro fuel st h
    exact load_inv cfg fuel st h

/-- Witness for the amended C2 on a concrete feed. -/
theorem C2_monotonic_amended_witness :
    Inv (startFeed baseCfg none none [] []) ∧
    Inv (load baseCfg 3 base).2 :=
  ⟨(C2_monotonic_amended baseCfg rfl none none [] []).1,
   (C2_monotonic_amended baseCfg rfl none none [] []).2 3 base
     ⟨rfl, by simp [base]⟩⟩

/-- C6: a malformed or mismatched live message — wrong instrument or
timeframe, a stale tick or candle, or a CONNECTED status event while the
reconnect flag is clear — is silently dropped: the poll consumes it and
keeps looping on an otherwise unchanged state; no notification, state
change or exception results from it. -/
theorem C6_malformed_live_dropped (cfg : Params) (fuel : ℕ) :
    (∀ (st : FeedSt) (rest : List LiveMsg) (sym tf : String) (pl : Payload),
      cfg.subscribe = SubMode.data → st.state = FSMSt.ST_LIVE →
      st.qlive = LiveMsg.dataMsg sym tf pl :: rest →
      ¬(tf = cfg.granularity ∧ sym = cfg.dataname) →
      loadLoop cfg (fuel + 1) st =
        loadLoop cfg fuel { st with qlive := rest }) ∧
    (∀ (st : FeedSt) (rest : List LiveMsg) (ts bid ask : ℚ),
      cfg.subscribe = SubMode.data → st.state = FSMSt.ST_LIVE →
      st.qlive =
        LiveMsg.dataMsg cfg.dataname cfg.granularity
          (Payload.tickData ts bid ask) :: rest →
      cfg.granularity = "TICK" →
      dtSeen (date2num (ts / 1000)) (lastDt st) = true →
      loadLoop cfg (fuel + 1) st =
        loadLoop cfg fuel { st with qlive := rest }) ∧
    (∀ (st : FeedSt) (rest : List LiveMsg) (ts o h l c v : ℚ) (sp : ℤ),
      cfg.subscribe = SubMode.data → st.state = FSMSt.ST_LIVE →
      st.qlive =
        LiveMsg.dataMsg cfg.dataname cfg.granularity
          (Payload.candleData ts o h l c v sp) :: rest →
      ¬cfg.granularity = "TICK" →
      dtSeen (date2num ts) (lastDt st) = true →
      loadLoop cfg (fuel + 1) st =
        loadLoop cfg fuel { st with qlive := rest }) ∧
    (∀ (st : FeedSt) (rest : List LiveMsg),
      cfg.subscribe = SubMode.data → st.state = FSMSt.ST_LIVE →
      st.qlive = LiveMsg.status ("CONNECTED") :: rest →
      st.statelivereconn = false →
      loadLoop cfg (fuel + 1) st =
        loadLoop cfg fuel { st with qlive := rest }) := by
  refine ⟨?_, ?_, ?_, ?_⟩
  · intro st rest sym tf pl hsub hstate hq hmm
    refine loadLoop_again cfg fuel st _ ?_
    simp [loadStep, hstate, liveStep, recvLive, hsub, hq, msgStatus,
      msgTimeframe, msgSymbol, hmm]
  · intro st rest ts bid ask hsub hstate hq hg hstale
    simp only [lastDt] at hstale
    refine loadLoop_again cfg fuel st _ ?_
    simp [loadStep, hstate, liveStep, recvLive, hsub, hq, msgStatus,
      msgTimeframe, msgSymbol, msgData, hg, load_tick, lastDt, hstale,
      blankBar]
  · intro st rest ts o h l c v sp hsub hstate hq htn hstale
    simp only [lastDt] at hstale
    refine loadLoop_again cfg fuel st _ ?_
    simp [loadStep, hstate, liveStep, recvLive, hsub, hq, msgStatus,
      msgTimeframe, msgSymbol, msgData, htn, load_candle, lastDt, hstale,
      blankBar]
  · intro st rest hsub hstate hq hflag
    refine loadLoop_again cfg fuel st _ ?_
    simp [loadStep, hstate, liveStep, recvLive, hsub, hq, msgStatus,
      msgTimeframe, msgSymbol, hflag]

/-- Witness for C6 on a concrete mismatched-instrument live message. -/
theorem C6_malformed_live_dropped_witness :
    loadLoop baseCfg 1 stC6 = loadLoop baseCfg 0 { stC6 with qlive := [] } :=
  (C6_malformed_live_dropped baseCfg 0).1 stC6 []
    ("GBPUSD") ("M1") (Payload.tickData 0 1 2) rfl rfl rfl (by decide)

/-- C7: in the LIVE state with the queue transport and an empty queue, the
poll blocks forever inside `Queue.get()` instead of returning the try-later
signal (the `except queue.Empty` handler is dead code for a blocking get);
with the SUB transport and no message within the receive timeout, the
`zmq` receive raises and the exception escapes `_load`. -/
theorem C7_empty_queue_blocks :
    load baseCfg 5 base = (LoadResult.blocked, base) ∧
    LoadResult.blocked ≠ LoadResult.tryLater ∧
    load cfgSub 5 base = (LoadResult.exn, base) ∧
    LoadResult.exn ≠ LoadResult.tryLater := by
  refine ⟨?_, by decide, ?_, by decide⟩
  · have h : loadStep baseCfg base = StepOut.done LoadResult.blocked base := by
      simp [loadStep, base, liveStep, recvLive, baseCfg]
    rw [load_eq_loop baseCfg 5 base (by simp [base])
      (by simp [base, haslivedata, baseCfg])]
    exact loadLoop_done baseCfg 4 base LoadResult.blocked base h
  · have h : loadStep cfgSub base = StepOut.done LoadResult.exn base := by
      simp [loadStep, base, liveStep, recvLive, cfgSub, baseCfg]
    rw [load_eq_loop cfgSub 5 base (by simp [base])
      (by simp [base, haslivedata, cfgSub, baseCfg])]
    exact loadLoop_done cfgSub 4 base LoadResult.exn base h

/-- Witness for C8's general clause on a concrete candle. -/
theorem C8_spread_adjustment_witness :
    (load_candle cfgC8eur none blankBar 0 (11 / 10) 2 3 4 5 20).2.opn =
      (if endsWithJPY cfgC8eur.dataname then
        roundTo 3 ((11 : ℚ) / 10 + (20 : ℤ) * (1 / 1000))
      else roundTo 5 ((11 : ℚ) / 10 + (20 : ℤ) * (1 / 100000))) := by
  have h := (C8_spread_adjustment).1 cfgC8eur none blankBar 0 (11 / 10) 2 3 4
    5 20 (load_candle cfgC8eur none blankBar 0 (11 / 10) 2 3 4 5 20).2
    rfl ?_
  · exact h.1
  · rw [load_candle]
    split
    · simp_all [dtSeen]
    · rfl

end MT5Data
